import Mathlib

/-!
Verification of the world model and command-resolution engine of the
`rust-in-peace` text-adventure (src/rust_in_peace/src/game_lib.rs).

The Rust source is mid-refactor: the constructors (`World::new`, lines
280-484) and the combat code build a tagged union `Object` whose variants
carry a `name` and per-variant fields, while the spatial and interpreter
functions (`is_containing`, `get_distance`, `passage_index`, `do_get`,
`do_consume`, `move_object`, `do_go`, `do_look`, ...) still read the
pre-refactor arena-object fields `location : Option<usize>`,
`destination : Option<usize>`, `label`, `item`, `consumable`,
`health : Option<u64>`, `attack : Option<u64>` (these appear in the
commented-out passage objects, lines 300-481, and in the spec's data
model).  The embedding therefore uses one record per object carrying a
`kind` tag for the union variant together with those arena fields; the
per-variant fields of the union are stored in the corresponding arena
fields (a weapon's `attack_points` in `attack`, a consumable's
`health_points` in `health`, each variant's `name` in `name`, which also
stands for `label[0]`).

Machine integers: all `u64`/`usize` values are `Nat`.  Subtraction on
`u64` is a program error on underflow in Rust (panic in debug builds), so
it is embedded as `u64Sub : Nat → Nat → Option Nat` returning `none` on
underflow; a `none` result of a stateful operation models a panic.
Terminal output is elided except where a function returns its text.
-/

/-- Index constants for the default world (game_lib.rs lines 15-24). -/
def LOC_FOREST : Nat := 0

/-- Index of the Dungeons location object. -/
def LOC_DUNGEONS : Nat := 1

/-- Index of the Cave location object. -/
def LOC_CAVE : Nat := 2

/-- Index of the Tavern location object. -/
def LOC_TAVERN : Nat := 3

/-- Index of the Village location object. -/
def LOC_VILLAGE : Nat := 4

/-- Index of the StrongHold location object. -/
def LOC_STRONGHOLD : Nat := 5

/-- Index of the player object. -/
def LOC_PLAYER : Nat := 6

/-- Index of the Bear enemy object. -/
def LOC_BEAR : Nat := 7

/-- Index of the Troll enemy object. -/
def LOC_TROLL : Nat := 8

/-- Index of the Bandits enemy object. -/
def LOC_BANDITS : Nat := 9

/-- Distance enum (game_lib.rs lines 27-36); the derived `Ord` orders the
variants in declaration order. -/
inductive Distance
  | Player
  | Held
  | Location
  | Here
  | OverThere
  | NotHere
  | Unknown
deriving DecidableEq, Repr

/-- Rank of a `Distance` variant under the derived `Ord` (declaration
order, `Player` least). -/
def Distance.toNat : Distance → Nat
  | .Player => 0
  | .Held => 1
  | .Location => 2
  | .Here => 3
  | .OverThere => 4
  | .NotHere => 5
  | .Unknown => 6

/-- The comparison `d1 <= d2` of the derived `PartialOrd` on `Distance`,
used by `object_index` for max-distance filtering. -/
def Distance.ble (d1 d2 : Distance) : Bool :=
  Nat.ble d1.toNat d2.toNat

/-- `AmbiguousOption` (game_lib.rs lines 222-227). -/
inductive AmbiguousOption (α : Type)
  | none
  | some (a : α)
  | ambiguous
deriving DecidableEq, Repr

/-- The variant tag of the `Object` union (game_lib.rs lines 183-189). -/
inductive ObjKind
  | location
  | player
  | weapon
  | consumable
  | enemy
deriving DecidableEq, Repr

/-- One game object: the union variant tag plus the arena fields read by
the spatial/interpreter functions (see the module comment). -/
structure Object where
  kind : ObjKind
  name : String
  description : String
  location : Option Nat
  destination : Option Nat
  health : Option Nat
  attack : Option Nat
  item : Bool
  consumable : Bool
deriving DecidableEq, Repr

/-- Placeholder for out-of-range indexing (Rust would panic; every index
used by the verified scenarios is in range). -/
def defaultObject : Object :=
  { kind := ObjKind.location, name := "", description := "", location := Option.none,
    destination := Option.none, health := Option.none, attack := Option.none,
    item := false, consumable := false }

/-- The world: an ordered arena of objects (game_lib.rs lines 229-233). -/
structure World where
  objects : List Object
deriving DecidableEq

/-- `self.objects[i]`. -/
def World.objAt (w : World) (i : Nat) : Object :=
  w.objects.getD i defaultObject

/-- In-place update `self.objects[i].location = v`. -/
def World.set_location (w : World) (i : Nat) (v : Option Nat) : World :=
  World.mk (w.objects.set i { w.objAt i with location := v })

/-- In-place update `self.objects[i].health = v`. -/
def World.set_health (w : World) (i : Nat) (v : Option Nat) : World :=
  World.mk (w.objects.set i { w.objAt i with health := v })

/-- Checked `u64` subtraction: `none` models the Rust panic (debug) /
wrap (release) on underflow. -/
def u64Sub (a b : Nat) : Option Nat :=
  if Nat.ble b a then Option.some (a - b) else Option.none

/-- `Location::Forest` etc. as an arena object (name is the `Debug`
rendering used by `object_with_label`, description is the `Display`
text, lines 80-93). -/
def mkLocation (name description : String) : Object :=
  { kind := ObjKind.location, name := name, description := description,
    location := Option.none, destination := Option.none, health := Option.none,
    attack := Option.none, item := false, consumable := false }

/-- `Player::new` (lines 171-179): location Forest, health 100. -/
def mkPlayer (name : String) : Object :=
  { kind := ObjKind.player, name := name, description := "",
    location := Option.some LOC_FOREST, destination := Option.none,
    health := Option.some 100, attack := Option.none, item := false, consumable := false }

/-- `Enemy::new` (lines 159-169): health 100.
Modelled from the spec: the pre-refactor `item`/`enemy`/`consumable`
flags are absent from src; per spec section 4.3 enemies are neither
items nor consumables. -/
def mkEnemy (name description : String) (attack : Nat) (location : Nat) : Object :=
  { kind := ObjKind.enemy, name := name, description := description,
    location := Option.some location, destination := Option.none,
    health := Option.some 100, attack := Option.some attack,
    item := false, consumable := false }

/-- `Weapon::new` (lines 127-141); `attack_points` is stored in the
`attack` arena field.
Modelled from the spec: the pre-refactor `item` flag is absent from src;
per spec section 4.3 a weapon is an item (movable into inventory) and
not a consumable. -/
def mkWeapon (name description : String) (location : Nat) (attackPoints : Nat) : Object :=
  { kind := ObjKind.weapon, name := name, description := description,
    location := Option.some location, destination := Option.none,
    health := Option.none, attack := Option.some attackPoints,
    item := true, consumable := false }

/-- `Consumable::new` (lines 103-117); `health_points` is stored in the
`health` arena field (read back by `do_consume`, line 818).
Modelled from the spec: the pre-refactor flags are absent from src; per
spec section 4.3 a consumable is an item with the consumable flag set
(`get` auto-consumes it). -/
def mkConsumable (name description : String) (healthPoints : Nat) (location : Nat) : Object :=
  { kind := ObjKind.consumable, name := name, description := description,
    location := Option.some location, destination := Option.none,
    health := Option.some healthPoints, attack := Option.none,
    item := true, consumable := true }

/-- `World::new` (lines 281-484): the built-in default world. -/
def World.new : World :=
  World.mk [
    mkLocation "Forest" "Look out for tree people.",
    mkLocation "Dungeons" "Be aware of trolls.",
    mkLocation "Cave" "Watch out for bats and look out for light.",
    mkLocation "Tavern" "The tavern is empty. But the fire is still burning in the fireplace.",
    mkLocation "Village" "An abandoned village. It has been ransacked by a group of bandits.",
    mkLocation "StrongHold" "A stronghold. It is heavily guarded by a group of bandits.",
    mkPlayer "Master of None",
    mkEnemy "Bear" "A bear" 20 LOC_CAVE,
    mkEnemy "Troll" "A troll" 20 LOC_DUNGEONS,
    mkEnemy "Bandits" "A group of bandits" 30 LOC_STRONGHOLD,
    mkWeapon "Sword" "A rusty sword" LOC_DUNGEONS 20,
    mkWeapon "Bow" "A bow" LOC_TAVERN 10,
    mkWeapon "Bones" "Bones of an animal" LOC_CAVE 5,
    mkWeapon "Spear" "A spear" LOC_VILLAGE 25,
    mkConsumable "Apple" "An apple" 10 LOC_TAVERN,
    mkConsumable "Potion" "A vial of healing potion (Get it to increase health)  (Hint: Type <get potion> to consume it)" 20 LOC_VILLAGE
  ]

/-- `World::is_containing` (lines 876-878). -/
def World.is_containing (w : World) (container object : Option Nat) : Bool :=
  object.isSome && ((object.bind fun a => (w.objAt a).location) == container)

/-- `World::passage_index` (lines 949-971): first object whose location
is `f` and destination is `t` (the loop breaks at the first hit). -/
def World.passage_index (w : World) (f t : Option Nat) : Option Nat :=
  match f, t with
  | Option.some fi, Option.some ti =>
    ((w.objects.enum.find? fun po =>
        po.2.location == Option.some fi && po.2.destination == Option.some ti).map Prod.fst)
  | _, _ => Option.none

/-- `World::get_distance` (lines 881-899). -/
def World.get_distance (w : World) (f t : Option Nat) : Distance :=
  let fromLoc := f.bind fun a => (w.objAt a).location
  if t.isNone then Distance.Unknown
  else if t == f then Distance.Player
  else if w.is_containing f t then Distance.Held
  else if w.is_containing t f then Distance.Location
  else if fromLoc.isSome && w.is_containing fromLoc t then Distance.Here
  else if (w.passage_index fromLoc t).isSome then Distance.OverThere
  else Distance.NotHere

/-- Rust `str::to_lowercase`, restricted to its ASCII behaviour (the only
case arising in this world); structurally recursive so the kernel can
evaluate it. -/
def strToLower (s : String) : String :=
  String.mk (s.data.map Char.toLower)

/-- `World::object_with_label` (lines 543-553): case-insensitive match of
the object's name (for a `Location` variant, its `Debug` name) against
the noun. -/
def World.object_with_label (_w : World) (object : Object) (noun : String) : Bool :=
  strToLower object.name == strToLower noun

/-- One step of `object_index`'s accumulation (the loop body, lines
563-573): a first match records `some position`, any further match makes
the result `Ambiguous`. -/
def ambStep (p : Nat × Object → Bool) (result : AmbiguousOption Nat) (po : Nat × Object) :
    AmbiguousOption Nat :=
  if p po then
    match result with
    | AmbiguousOption.none => AmbiguousOption.some po.1
    | _ => AmbiguousOption.ambiguous
  else result

/-- `World::object_index` (lines 556-575). -/
def World.object_index (w : World) (noun : String) (f : Option Nat) (maxDistance : Distance) :
    AmbiguousOption Nat :=
  w.objects.enum.foldl
    (ambStep fun po =>
      w.object_with_label po.2 noun && (w.get_distance f (Option.some po.1)).ble maxDistance)
    AmbiguousOption.none

/-- The indices that `object_index` counts as matches: objects whose name
matches the noun case-insensitively within `maxDistance` of `f`. -/
def World.match_indices (w : World) (noun : String) (f : Option Nat) (maxDistance : Distance) :
    List Nat :=
  ((w.objects.enum.filter fun po =>
      w.object_with_label po.2 noun && (w.get_distance f (Option.some po.1)).ble maxDistance).map
    Prod.fst)

/-- Accumulator for `tokenize`: splits a character list into the maximal
runs of non-whitespace characters (`cur` is the current run, reversed). -/
def tokenize : List Char → List Char → List String
  | [], cur => if cur.isEmpty then [] else [String.mk cur.reverse]
  | c :: cs, cur =>
    if c.isWhitespace then
      if cur.isEmpty then tokenize cs [] else String.mk cur.reverse :: tokenize cs []
    else tokenize cs (c :: cur)

/-- Rust `str::split_whitespace`: the maximal non-whitespace runs, in
order (never yields an empty token). -/
def splitWhitespace (s : String) : List String :=
  tokenize s.data []

/-- Rust `str::trim`: strips leading and trailing whitespace. -/
def strTrim (s : String) : String :=
  String.mk (((s.data.dropWhile Char.isWhitespace).reverse.dropWhile Char.isWhitespace).reverse)

/-- Whether `pat` occurs at the start of `text`. -/
def startsWithChars : List Char → List Char → Bool
  | [], _ => true
  | _ :: _, [] => false
  | p :: ps, t :: ts => p == t && startsWithChars ps ts

/-- Whether `pat` occurs somewhere in `text`. -/
def subOccurs (pat : List Char) : List Char → Bool
  | [] => pat.isEmpty
  | t :: ts => startsWithChars pat (t :: ts) || subOccurs pat ts

/-- Rust `str::contains` with a string pattern (substring search), as the
combat loop applies it to each input line. -/
def containsSub (s pat : String) : Bool :=
  subOccurs pat.data s.data

/-- The `Command` enum (game_lib.rs lines 39-50). -/
inductive Command
  | Drop (noun : String)
  | Get (noun : String)
  | Attack (noun : String)
  | Look (noun : String)
  | Go (noun : String)
  | Unknown (text : String)
  | Inventory
  | Quit
  | Help
  | Map
deriving DecidableEq, Repr

/-- `parse` (lines 1078-1103): lowercase, take the first whitespace token
as the verb, rejoin the rest with single spaces as the noun, and map the
verb to a command; an unrecognized verb yields `Unknown` carrying the
trimmed lowercased input. -/
def parse (input : String) : Command :=
  let inputLower := strToLower input
  let tokens := splitWhitespace inputLower
  let verb := tokens.headD ""
  let noun := (tokens.drop 1).foldl
    (fun accum item => if accum.isEmpty then accum ++ item else accum ++ " " ++ item) ""
  match verb with
  | "look" => Command.Look noun
  | "go" => Command.Go noun
  | "quit" => Command.Quit
  | "attack" => Command.Attack noun
  | "drop" => Command.Drop noun
  | "get" => Command.Get noun
  | "help" => Command.Help
  | "inventory" => Command.Inventory
  | "map" => Command.Map
  | _ => Command.Unknown (strTrim inputLower)

/-- `World::object_visible` (lines 578-598): resolve a noun at the
`OverThere` and `NotHere` thresholds from the player. -/
def World.object_visible (w : World) (noun : String) : String × Option Nat :=
  let objOverThere := w.object_index noun (Option.some LOC_PLAYER) Distance.OverThere
  let objNotHere := w.object_index noun (Option.some LOC_PLAYER) Distance.NotHere
  match objOverThere, objNotHere with
  | AmbiguousOption.none, AmbiguousOption.none => ("Invalid command!!", Option.none)
  | AmbiguousOption.none, AmbiguousOption.some _ =>
    ("You don't see any '" ++ noun ++ "' here.\n", Option.none)
  | AmbiguousOption.ambiguous, _ =>
    ("Please be more specific about which " ++ noun ++
      " you mean. Try typing out the location.\n", Option.none)
  | AmbiguousOption.none, AmbiguousOption.ambiguous =>
    ("Please be more specific about which " ++ noun ++
      " you mean. Try typing out the location.\n", Option.none)
  | AmbiguousOption.some index, _ => ("", Option.some index)

/-- `World::list_objects` (lines 601-623): the describable objects
(weapons, consumables, enemies) contained in `location`, with a count. -/
def World.list_objects (w : World) (location : Nat) : String × Nat :=
  w.objects.enum.foldl
    (fun acc po =>
      match po.2.kind with
      | ObjKind.weapon =>
        if w.is_containing (Option.some location) (Option.some po.1) then
          (acc.1 ++ po.2.description ++ "\n", acc.2 + 1)
        else acc
      | ObjKind.consumable =>
        if w.is_containing (Option.some location) (Option.some po.1) then
          (acc.1 ++ po.2.description ++ "\n", acc.2 + 1)
        else acc
      | ObjKind.enemy =>
        if w.is_containing (Option.some location) (Option.some po.1) then
          (acc.1 ++ po.2.description ++ "\n", acc.2 + 1)
        else acc
      | _ => acc)
    ("\nYou see:\n", 0)

/-- `World::do_look` (lines 767-779); `none` models the panic of
`location.unwrap()` when the player has no location. -/
def World.do_look (w : World) (noun : String) : Option (String × World) :=
  match noun with
  | "" =>
    match (w.objAt LOC_PLAYER).location with
    | Option.none => Option.none
    | Option.some loc =>
      let pair := w.list_objects loc
      Option.some
        (" You are in the " ++ (w.objAt loc).name ++ "\n " ++ (w.objAt loc).description ++
          ".\n" ++ pair.1, w)
  | _ => Option.some ("Invalid command!!\n", w)

/-- `World::describe_move` (lines 902-930), with the source's guarded
match arms rendered as nested conditionals in the same priority order. -/
def World.describe_move (w : World) (objOpt toRef : Option Nat) : String :=
  let objLoc := objOpt.bind fun a => (w.objAt a).location
  let playerLoc := (w.objAt LOC_PLAYER).location
  match objOpt with
  | Option.none => "Please you have to drop something.\n"
  | Option.some o =>
    match toRef with
    | Option.some t =>
      if playerLoc = Option.some t then
        "You have dropped " ++ (w.objAt o).name ++ ".\n"
      else if t ≠ LOC_PLAYER then
        "You put " ++ (w.objAt o).name ++ " in " ++ (w.objAt t).name ++ ".\n"
      else
        match objLoc with
        | Option.some l =>
          if playerLoc = Option.some l then "You pick up the " ++ (w.objAt o).name ++ ".\n"
          else "You got " ++ (w.objAt o).name ++ " from " ++ (w.objAt l).name ++ ".\n"
        | Option.none => "Please you have to drop something.\n"
    | Option.none =>
      match objLoc with
      | Option.some l =>
        if playerLoc = Option.some l then "You pick up the " ++ (w.objAt o).name ++ ".\n"
        else "You got " ++ (w.objAt o).name ++ " from " ++ (w.objAt l).name ++ ".\n"
      | Option.none => "Please you have to drop something.\n"

/-- `World::move_object` (lines 933-946). -/
def World.move_object (w : World) (objOpt toRef : Option Nat) : String × World :=
  let objLoc := objOpt.bind fun a => (w.objAt a).location
  match objOpt, objLoc, toRef with
  | Option.none, _, _ => ("", w)
  | Option.some _, _, Option.none => ("No one is present here to give.\n", w)
  | Option.some _, Option.none, Option.some _ => ("You cannot get that!!\n", w)
  | Option.some objIdx, Option.some _, Option.some toIdx =>
    (w.describe_move objOpt toRef, w.set_location objIdx (Option.some toIdx))

/-- `World::get_possession` (lines 974-1015); `command` is the `Display`
rendering of the command argument (for `do_drop`, the string "drop").
The source's guarded match arms are rendered as nested matches in the
same priority order. -/
def World.get_possession (w : World) (f : Option Nat) (command : String) (noun : String) :
    String × Option Nat :=
  let objectHeld := w.object_index noun f Distance.Held
  let objectNotHere := w.object_index noun f Distance.NotHere
  match f with
  | Option.none => ("I don't understand what is needed " ++ command ++ ".\n", Option.none)
  | Option.some fi =>
    match objectHeld with
    | AmbiguousOption.none =>
      match objectNotHere with
      | AmbiguousOption.none =>
        ("Please use correct command for: " ++ command ++ ".\n", Option.none)
      | _ =>
        if fi = LOC_PLAYER then ("You are not holding any " ++ noun ++ ".\n", Option.none)
        else ("You don't see any " ++ noun ++ " here.\n", Option.none)
    | AmbiguousOption.some object =>
      if object = fi then
        ("It is illegal to do this: " ++ (w.objAt object).name ++ ".\n", Option.none)
      else ("", Option.some object)
    | AmbiguousOption.ambiguous =>
      ("Please be more specific about which " ++ noun ++ " you want to " ++ command ++ ".\n",
        Option.none)

/-- `World::do_drop` (lines 808-814). -/
def World.do_drop (w : World) (noun : String) : String × World :=
  let pos := w.get_possession (Option.some LOC_PLAYER) "drop" noun
  let playerLoc := (w.objAt LOC_PLAYER).location
  let mv := w.move_object pos.2 playerLoc
  (pos.1 ++ mv.1, mv.2)

/-- `World::do_consume` (lines 817-838); `none` models the panic of
`object.unwrap()`.  The `u64` addition `h + heal` cannot overflow for
the healths and heal amounts this game stores, so it is plain `Nat`
addition. -/
def World.do_consume (w : World) (object : Option Nat) : Option (String × World) :=
  match object with
  | Option.none => Option.none
  | Option.some objIdx =>
    let heal := (w.objAt objIdx).health.getD 0
    let playerHealth := (w.objAt LOC_PLAYER).health.getD 0
    if playerHealth = 100 then Option.some ("You are already at full health", w)
    else
      let newHealth := ((w.objAt LOC_PLAYER).health.map fun h => h + heal).getD 0
      let w1 := w.set_health LOC_PLAYER (Option.some newHealth)
      let w2 :=
        if 100 < (w1.objAt LOC_PLAYER).health.getD 0 then
          w1.set_health LOC_PLAYER (Option.some 100)
        else w1
      let w3 := w2.set_location objIdx Option.none
      Option.some
        ("You have consumed the item. Your health has increased to " ++
          toString ((w3.objAt LOC_PLAYER).health.getD 0) ++ "\n", w3)

/-- `World::do_get` (lines 841-863). -/
def World.do_get (w : World) (noun : String) : Option (String × World) :=
  let vis := w.object_visible noun
  let output := vis.1
  let objOpt := vis.2
  let objItem := (objOpt.map fun a => (w.objAt a).item).getD false
  let playerToObj := w.get_distance (Option.some LOC_PLAYER) objOpt
  let objConsumable := (objOpt.map fun a => (w.objAt a).consumable).getD false
  match playerToObj, objOpt, objItem, objConsumable with
  | Distance.Player, _, _, _ => Option.some (output ++ "Invalid!! You cannot get that!!", w)
  | Distance.Held, Option.some objIndex, true, _ =>
    Option.some (output ++ "You already have: " ++ (w.objAt objIndex).description ++ ".\n", w)
  | Distance.OverThere, _, true, _ =>
    Option.some (output ++ "The item is not here. Try elsewhere!!\n", w)
  | Distance.OverThere, _, false, false => Option.some (output ++ "You cannot get that!!\n", w)
  | Distance.Here, _, false, false => Option.some (output ++ "You cannot get that!!\n", w)
  | Distance.Unknown, _, false, false => Option.some (output, w)
  | Distance.Here, _, true, true => w.do_consume objOpt
  | _, _, _, _ => Option.some (w.move_object objOpt (Option.some LOC_PLAYER))

/-- `World::do_inventory` (lines 866-873). -/
def World.do_inventory (w : World) : String :=
  let pair := w.list_objects LOC_PLAYER
  if pair.2 = 0 then "You currently do not have anything in your inventory.\n"
  else pair.1

/-- `World::do_go` (lines 782-805). -/
def World.do_go (w : World) (noun : String) : Option (String × World) :=
  let vis := w.object_visible noun
  match w.get_distance (Option.some LOC_PLAYER) vis.2 with
  | Distance.OverThere =>
    let w1 := w.set_location LOC_PLAYER vis.2
    (w1.do_look "").map fun p => ("OK.\n" ++ p.1, p.2)
  | Distance.NotHere => Option.some ("You don't see any '" ++ noun ++ "' here.\n", w)
  | Distance.Unknown => Option.some (vis.1, w)
  | _ =>
    match vis.2.bind fun a => (w.objAt a).destination with
    | Option.some d =>
      let w1 := w.set_location LOC_PLAYER (Option.some d)
      (w1.do_look "").map fun p => ("OK.\n" ++ p.1, p.2)
    | Option.none =>
      Option.some ((vis.2.map fun a => (w.objAt a).description).getD "Invalid command!!\n", w)

/-- The stored player health `objects[LOC_PLAYER].health` that `do_attack`
snapshots (line 728) and `game_over` reads (line 511). -/
def World.player_health (w : World) : Nat :=
  (w.objAt LOC_PLAYER).health.getD 0

/-- `World::do_use` (lines 646-703).  `rand` stands for the thread-rng
draw: the uniform value of `gen_range(0..enemy.attack)` is modelled as
`rand % enemy.attack` (and `gen_range` on the empty range `0..0`
panics).  A `none` result models a panic — in particular the unchecked
`u64` subtractions `obj_health -= attack_pwr` (line 673) and
`player.health -= attack` (line 695, on a local copy of the player). -/
def World.do_use (w : World) (msg : String) (objHealth objIndex rand : Nat) :
    Option (World × Nat) :=
  let noun := ((splitWhitespace msg).drop 1).headD ""
  let vis := w.object_visible noun
  match vis.2 with
  | Option.none => Option.some (w, objHealth)
  | Option.some index =>
    let object := w.objAt index
    match object.kind with
    | ObjKind.weapon =>
      let attackPwr := object.attack.getD 0
      match (w.objAt objIndex).kind with
      | ObjKind.enemy =>
        let enemyAttack := (w.objAt objIndex).attack.getD 0
        match u64Sub objHealth attackPwr with
        | Option.none => Option.none
        | Option.some objHealth1 =>
          if objHealth1 = 0 then Option.some (w, objHealth1)
          else if enemyAttack = 0 then Option.none
          else
            let attack := rand % enemyAttack
            if attack = 0 then Option.some (w, objHealth1)
            else
              match (if (w.objAt LOC_PLAYER).kind = ObjKind.player then
                      u64Sub w.player_health attack
                    else Option.some 0) with
              | Option.none => Option.none
              | Option.some _ => Option.some (w, objHealth1)
      | _ => Option.some (w, objHealth)
    | _ => Option.some (w, objHealth)

/-- How the combat loop of `do_attack` ends. -/
inductive CombatExit
  | playerDead
  | enemyDead
  | fled
deriving DecidableEq, Repr

/-- Result of running the combat loop on a finite list of input lines. -/
inductive CombatResult
  | exited (e : CombatExit) (w : World) (objHealth : Nat)
  | panicked
  | awaitingInput (w : World) (objHealth : Nat)
deriving DecidableEq

/-- The interactive loop of `do_attack` (lines 730-755), driven by the
finite list of input lines the actor will type, each paired with the rng
draw of that iteration.  `snap` is the `player.health` binding made once
before the loop (line 728); the dead-player test at the top of each
iteration reads it.  `awaitingInput` models the loop blocking on
`read_line` when the list is exhausted; `panicked` propagates a panic
from `do_use`. -/
def World.combat_loop : World → Nat → Nat → Nat → List (String × Nat) → CombatResult
  | w, snap, objHealth, _, [] =>
    if snap = 0 then CombatResult.exited CombatExit.playerDead w objHealth
    else CombatResult.awaitingInput w objHealth
  | w, snap, objHealth, objIndex, (command, r) :: rest =>
    if snap = 0 then CombatResult.exited CombatExit.playerDead w objHealth
    else if containsSub command "run" then CombatResult.exited CombatExit.fled w objHealth
    else if containsSub command "inventory" then
      World.combat_loop w snap objHealth objIndex rest
    else if containsSub command "use" then
      match w.do_use command objHealth objIndex r with
      | Option.none => CombatResult.panicked
      | Option.some (w1, objHealth1) =>
        if objHealth1 = 0 then CombatResult.exited CombatExit.enemyDead w1 objHealth1
        else World.combat_loop w1 snap objHealth1 objIndex rest
    else World.combat_loop w snap objHealth objIndex rest

/-- `World::do_attack` (lines 706-764).  `inputs` are the combat-loop
input lines (with rng draws); `none` models a panic
(`objects[LOC_PLAYER]` not being a player at line 728) or the loop still
blocking on input when `inputs` runs out. -/
def World.do_attack (w : World) (noun : String) (inputs : List (String × Nat)) :
    Option (String × World) :=
  let vis := w.object_visible noun
  match vis.2 with
  | Option.none => Option.some (vis.1, w)
  | Option.some objIndex =>
    match (w.objAt objIndex).kind with
    | ObjKind.enemy =>
      let enemyName := (w.objAt objIndex).name
      let objHealth := (w.objAt objIndex).health.getD 0
      if objHealth = 0 then Option.some ("The " ++ enemyName ++ " is already dead.\n", w)
      else if (w.objAt LOC_PLAYER).kind = ObjKind.player then
        match w.combat_loop w.player_health objHealth objIndex inputs with
        | CombatResult.exited CombatExit.playerDead w1 _ => Option.some ("\nYou died", w1)
        | CombatResult.exited CombatExit.enemyDead w1 _ =>
          Option.some ("\nYou killed the " ++ enemyName ++ ".\n", w1)
        | CombatResult.exited CombatExit.fled w1 _ =>
          Option.some ("You ran away from the " ++ enemyName ++ ".\n", w1)
        | _ => Option.none
      else Option.none
    | _ => Option.some ("You can't attack the " ++ noun ++ ".\n", w)

/-- `World::display_help` (lines 1034-1046); the Rust string literal
spans source lines, so each `\n` is followed by a literal newline and
the 8-space indentation of the next line. -/
def World.display_help (_w : World) : String :=
  "Available commands are\n\n        look\n\n        attack <enemy name>\n\n        go <location>\n\n        get <item name>\n\n        drop <item name>\n\n        inventory \n\n        map \n\n        quit\n\n        help\n"

/-- `World::display_locations` (lines 1048-1067); the `HashSet` of
destinations is modelled as a duplicate-free list, used only for
membership. -/
def World.display_locations (w : World) : String :=
  let destinations := w.objects.foldl
    (fun acc o =>
      match o.destination with
      | Option.some d => if acc.contains d then acc else acc ++ [d]
      | Option.none => acc)
    ([] : List Nat)
  w.objects.enum.foldl
    (fun result po =>
      if destinations.contains po.1 then result ++ toString po.1 ++ ": " ++ po.2.name ++ "\n"
      else result)
    "Available locations:\n"

/-- `World::update_state` (lines 626-643).  `combatInputs` feeds the
nested combat loop when the command is `Attack`; `none` models a panic
or blocking on further input. -/
def World.update_state (w : World) (command : Command) (combatInputs : List (String × Nat)) :
    Option (String × World) :=
  match command with
  | Command.Look noun => w.do_look noun
  | Command.Go noun => w.do_go noun
  | Command.Quit => Option.some ("Quitting.\nThank you for playing!", w)
  | Command.Attack noun => w.do_attack noun combatInputs
  | Command.Drop noun => Option.some (w.do_drop noun)
  | Command.Get noun => w.do_get noun
  | Command.Inventory => Option.some (w.do_inventory, w)
  | Command.Help => Option.some (w.display_help, w)
  | Command.Map => Option.some (w.display_locations, w)
  | Command.Unknown _ => Option.some ("Invalid command!!\n" ++ w.display_help, w)

/-! ### Characterization of `object_index` -/

/-- A step from an `ambiguous` accumulator stays `ambiguous`. -/
theorem ambStep_ambiguous (p : Nat × Object → Bool) (po : Nat × Object) :
    ambStep p AmbiguousOption.ambiguous po = AmbiguousOption.ambiguous := by
  unfold ambStep
  split <;> rfl

/-- Folding from an `ambiguous` accumulator stays `ambiguous`. -/
theorem foldl_ambStep_ambiguous (p : Nat × Object → Bool) :
    ∀ L : List (Nat × Object), L.foldl (ambStep p) AmbiguousOption.ambiguous =
      AmbiguousOption.ambiguous := by
  intro L
  induction L with
  | nil => rfl
  | cons a l ih => rw [List.foldl_cons, ambStep_ambiguous]; exact ih

/-- A step from a `some` accumulator keeps it unless the element matches,
in which case the result is `ambiguous`. -/
theorem ambStep_some (p : Nat × Object → Bool) (x : Nat) (po : Nat × Object) :
    ambStep p (AmbiguousOption.some x) po =
      if p po then AmbiguousOption.ambiguous else AmbiguousOption.some x := rfl

/-- Folding from a `some` accumulator: the result stays `some` exactly
when no further element matches. -/
theorem foldl_ambStep_some (p : Nat × Object → Bool) :
    ∀ (L : List (Nat × Object)) (x : Nat),
      L.foldl (ambStep p) (AmbiguousOption.some x) =
        if (L.filter p).isEmpty then AmbiguousOption.some x else AmbiguousOption.ambiguous := by
  intro L
  induction L with
  | nil => intro x; rfl
  | cons a l ih =>
    intro x
    rw [List.foldl_cons, ambStep_some]
    rcases h : p a with _ | _
    · rw [if_neg (by simp), ih x, List.filter_cons_of_neg (by simp [h])]
    · rw [if_pos rfl, foldl_ambStep_ambiguous, List.filter_cons_of_pos h]
      simp

/-- Folding from the `none` accumulator implements exact match counting:
no match gives `none`, a unique match gives `some` of its index, two or
more matches give `ambiguous`. -/
theorem foldl_ambStep_none (p : Nat × Object → Bool) :
    ∀ L : List (Nat × Object),
      L.foldl (ambStep p) AmbiguousOption.none =
        match (L.filter p).map Prod.fst with
        | [] => AmbiguousOption.none
        | [i] => AmbiguousOption.some i
        | _ :: _ :: _ => AmbiguousOption.ambiguous := by
  intro L
  induction L with
  | nil => rfl
  | cons a l ih =>
    rw [List.foldl_cons]
    rcases h : p a with _ | _
    · rw [show ambStep p AmbiguousOption.none a = AmbiguousOption.none by
        unfold ambStep; simp [h]]
      rw [List.filter_cons_of_neg (by simp [h])]
      exact ih
    · rw [show ambStep p AmbiguousOption.none a = AmbiguousOption.some a.1 by
        unfold ambStep; simp [h]]
      rw [foldl_ambStep_some, List.filter_cons_of_pos h]
      rcases hl : l.filter p with _ | ⟨b, bs⟩
      · simp [hl]
      · simp [hl]

/-- `object_index` counts the matching indices. -/
theorem object_index_eq_match_indices (w : World) (noun : String) (f : Option Nat)
    (maxDistance : Distance) :
    w.object_index noun f maxDistance =
      match w.match_indices noun f maxDistance with
      | [] => AmbiguousOption.none
      | [i] => AmbiguousOption.some i
      | _ :: _ :: _ => AmbiguousOption.ambiguous := by
  unfold World.object_index World.match_indices
  exact foldl_ambStep_none _ _

/-- Claim C3: for every world, noun, origin and max distance,
`object_index` returns `none` when zero objects match the noun by
case-insensitive name equality within `max_distance`, `some index` when
exactly one matches, and `ambiguous` whenever two or more match; the
relative distance between matches is never used as a tie-breaker (any
two matches within range give `ambiguous`). -/
theorem object_index_counts_name_matches (w : World) (noun : String) (f : Option Nat)
    (maxDistance : Distance) :
    w.object_index noun f maxDistance =
      match w.match_indices noun f maxDistance with
      | [] => AmbiguousOption.none
      | [i] => AmbiguousOption.some i
      | _ :: _ :: _ => AmbiguousOption.ambiguous :=
  object_index_eq_match_indices w noun f maxDistance

/-! ### `get_distance` follows the spec's priority order -/

/-- Modelled from the spec: section 4.1's priority list for the distance
classification, first match winning — `to` absent gives `Unknown`;
`to == from` gives `Player`; `to`'s location field equal to `from` gives
`Held`; `from`'s location field equal to `to` gives `Location`; `from`'s
own location containing `to` gives `Here`; a passage object existing
whose location equals `from`'s location and whose destination equals
`to` gives `OverThere`; otherwise `NotHere`. -/
def World.get_distance_spec (w : World) (f t : Option Nat) : Distance :=
  match t with
  | Option.none => Distance.Unknown
  | Option.some ti =>
    if Option.some ti = f then Distance.Player
    else if (w.objAt ti).location = f then Distance.Held
    else
      match f with
      | Option.none => Distance.NotHere
      | Option.some fi =>
        if (w.objAt fi).location = Option.some ti then Distance.Location
        else
          match (w.objAt fi).location with
          | Option.none => Distance.NotHere
          | Option.some l =>
            if (w.objAt ti).location = Option.some l then Distance.Here
            else if w.objects.any
                (fun o => o.location == Option.some l && o.destination == Option.some ti) then
              Distance.OverThere
            else Distance.NotHere

/-- Membership in an enumerated list, projected to the element. -/
theorem exists_enum_snd (l : List Object) (q : Object → Bool) :
    (∃ po : Nat × Object, po ∈ l.enum ∧ q po.2 = true) ↔ ∃ o, o ∈ l ∧ q o = true := by
  constructor
  · rintro ⟨po, hm, hq⟩
    refine ⟨po.2, ?_, hq⟩
    have : po.2 ∈ l.enum.map Prod.snd := List.mem_map_of_mem Prod.snd hm
    rwa [List.enum_map_snd] at this
  · rintro ⟨o, ho, hq⟩
    have : o ∈ l.enum.map Prod.snd := by rwa [List.enum_map_snd]
    obtain ⟨po, hpo, hsnd⟩ := List.mem_map.1 this
    exact ⟨po, hpo, by rwa [hsnd]⟩

/-- `passage_index` finds a passage exactly when one exists. -/
theorem passage_index_isSome (w : World) (l ti : Nat) :
    (w.passage_index (Option.some l) (Option.some ti)).isSome =
      (w.objects.any fun o => o.location == Option.some l && o.destination == Option.some ti) := by
  rw [Bool.eq_iff_iff]
  unfold World.passage_index
  rw [Option.isSome_map', List.find?_isSome, List.any_eq_true]
  exact exists_enum_snd w.objects
    (fun o => o.location == Option.some l && o.destination == Option.some ti)

/-- Claim C2: for every world and every pair of optional object
references, `get_distance` returns exactly one `Distance`, chosen by the
spec's priority order with first match winning, and it returns `Player`
exactly when `to` is present and equal to `from`. -/
theorem get_distance_matches_spec_priority (w : World) (f t : Option Nat) :
    w.get_distance f t = w.get_distance_spec f t ∧
      (w.get_distance f t = Distance.Player ↔ t.isSome = true ∧ t = f) := by
  cases t with
  | none =>
    constructor
    · rfl
    · simp [World.get_distance]
  | some ti =>
    constructor
    · cases f with
      | none =>
        simp only [World.get_distance, World.get_distance_spec, World.is_containing,
          Option.bind_none, Option.bind_some, Option.isNone_some, Bool.false_eq_true,
          if_false, Option.isSome_some, Option.isSome_none, Bool.true_and, Bool.false_and,
          beq_iff_eq, Bool.and_eq_true]
        simp [World.passage_index]
      | some fi =>
        rcases hfl : (w.objAt fi).location with _ | l
        · simp [World.get_distance, World.get_distance_spec, World.is_containing, hfl,
            World.passage_index, beq_iff_eq]
        · simp [World.get_distance, World.get_distance_spec, World.is_containing, hfl,
            passage_index_isSome, beq_iff_eq]
    · rcases f with _ | fi
      · by_cases hA : (Option.some ti : Option Nat) = Option.none
        · simp at hA
        · simp only [World.get_distance, World.is_containing, Option.bind_none,
            Option.isNone_some, Option.isSome_some, Option.isSome_none, Bool.true_and,
            Bool.false_and, beq_iff_eq]
          split_ifs <;> simp_all
      · simp only [World.get_distance, World.is_containing, Option.bind_some,
          Option.isNone_some, Option.isSome_some, Bool.true_and, beq_iff_eq]
        split_ifs <;> simp_all

/-! ### Visibility resolution -/

/-- What `object_visible` produces, as a function of the lists of
indices matching the noun at the `OverThere` (narrow) and `NotHere`
(wide) thresholds: no match anywhere reports an invalid command; a match
only at the wide threshold reports "not here"; two or more matches at
the narrow threshold, or none there and two or more at the wide one, ask
for disambiguation; and a unique narrow match proceeds — even when the
wide threshold is ambiguous. -/
def visTable (noun : String) (narrow wide : List Nat) : String × Option Nat :=
  match narrow, wide with
  | [], [] => ("Invalid command!!", Option.none)
  | [], [_] => ("You don't see any '" ++ noun ++ "' here.\n", Option.none)
  | [], _ :: _ :: _ =>
    ("Please be more specific about which " ++ noun ++
      " you mean. Try typing out the location.\n", Option.none)
  | [i], _ => ("", Option.some i)
  | _ :: _ :: _, _ =>
    ("Please be more specific about which " ++ noun ++
      " you mean. Try typing out the location.\n", Option.none)

/-- Claim C4 (amended): `object_visible` — the visibility resolution used
by Get and Attack — evaluates `object_index` at both the `OverThere` and
`NotHere` thresholds and dispatches on the exact match counts per
`visTable`; a unique narrow match proceeds even when the wider threshold
is ambiguous (Drop instead resolves through `get_possession` at the
`Held` and `NotHere` thresholds). -/
theorem object_visible_threshold_table (w : World) (noun : String) :
    w.object_visible noun =
      visTable noun (w.match_indices noun (Option.some LOC_PLAYER) Distance.OverThere)
        (w.match_indices noun (Option.some LOC_PLAYER) Distance.NotHere) := by
  unfold World.object_visible
  rw [object_index_eq_match_indices, object_index_eq_match_indices]
  rcases w.match_indices noun (Option.some LOC_PLAYER) Distance.OverThere with _ | ⟨i, _ | ⟨j, ns⟩⟩ <;>
    rcases w.match_indices noun (Option.some LOC_PLAYER) Distance.NotHere with _ | ⟨a, _ | ⟨b, ws⟩⟩ <;>
    rfl

/-- A world with two objects named Sword — one held by the player, one in
an unreachable location — exercising the ambiguous-at-the-wide-threshold
case of `object_visible`, and a world with a Sword lying in the player's
room (visible, not held) exercising `do_drop`'s threshold. -/
def c4WorldHeld : World :=
  World.mk [
    mkLocation "Room" "A room.",
    mkWeapon "Sword" "the held sword" LOC_PLAYER 20,
    mkWeapon "Sword" "the far sword" 4 20,
    mkLocation "Hall" "A hall.",
    mkLocation "Far" "A far place.",
    mkLocation "Pad" "A pad.",
    mkPlayer "Hero"
  ]

/-- Companion world for the Drop part of the counterexample: the only
Sword lies in the player's room, so it is uniquely visible at the
`OverThere` threshold but not held. -/
def c4WorldHere : World :=
  World.mk [
    mkLocation "Room" "A room.",
    mkWeapon "Sword" "the sword in the room" LOC_FOREST 20,
    mkLocation "Hall" "A hall.",
    mkLocation "Far" "A far place.",
    mkLocation "Pad" "A pad.",
    mkLocation "Yard" "A yard.",
    mkPlayer "Hero"
  ]

/-- Claim C4 as stated is false on two counts: in `c4WorldHeld` the
`NotHere` threshold is ambiguous for "sword", yet `object_visible`
proceeds with the unique narrow match instead of asking for
disambiguation; and in `c4WorldHere` the noun "sword" has a unique match
at the `OverThere` threshold, yet Drop does not proceed with it — it
resolves at the `Held` threshold and reports that the player is not
holding a sword (leaving the world unchanged). -/
theorem object_visible_ambiguity_counterexample :
    c4WorldHeld.object_index "sword" (Option.some LOC_PLAYER) Distance.NotHere =
        AmbiguousOption.ambiguous ∧
      c4WorldHeld.object_visible "sword" = ("", Option.some 1) ∧
      c4WorldHere.object_index "sword" (Option.some LOC_PLAYER) Distance.OverThere =
        AmbiguousOption.some 1 ∧
      c4WorldHere.do_drop "sword" = ("You are not holding any sword.\n", c4WorldHere) := by
  refine ⟨by decide, by decide, by decide, by decide⟩

/-! ### Combat: frame property of `do_use` and the loop's exits -/

/-- Whenever `do_use` returns (rather than panicking), the world it
returns is the one it was given: it never writes the backing store. -/
theorem do_use_frame (w : World) (msg : String) (objHealth objIndex rand : Nat) :
    ∀ p, w.do_use msg objHealth objIndex rand = Option.some p → p.1 = w := by
  intro p h
  simp only [World.do_use] at h
  repeat' split at h
  all_goals first
    | (cases h; rfl)
    | cases h

/-- Claim C5: for every world and every use-command line in combat,
`do_use` leaves every object in the world's backing store unchanged —
neither the targeted enemy's stored health nor the player's stored
health is modified; the only enemy-health value it affects is the local
copy passed in and returned. -/
theorem do_use_preserves_backing_store (w : World) (msg : String)
    (objHealth objIndex rand : Nat) :
    match w.do_use msg objHealth objIndex rand with
    | Option.none => True
    | Option.some p => p.1 = w := by
  rcases h : w.do_use msg objHealth objIndex rand with _ | p
  · trivial
  · exact do_use_frame w msg objHealth objIndex rand p h

/-- The combat loop, started from any snapshot `snap` of the player's
health: every normal exit is one of the three terminal states (with the
condition that triggered it), and the world — hence the stored player
health checked against `snap` — is never modified by the loop. -/
theorem combat_loop_cases (objIndex snap : Nat) :
    ∀ (inputs : List (String × Nat)) (w : World) (objHealth : Nat),
      match World.combat_loop w snap objHealth objIndex inputs with
      | CombatResult.exited e w1 h1 =>
        w1 = w ∧ ((e = CombatExit.playerDead ∧ snap = 0) ∨
          (e = CombatExit.enemyDead ∧ h1 = 0) ∨ e = CombatExit.fled)
      | CombatResult.panicked => True
      | CombatResult.awaitingInput w1 _ => w1 = w := by
  intro inputs
  induction inputs with
  | nil =>
    intro w objHealth
    by_cases hs : snap = 0 <;> simp [World.combat_loop, hs]
  | cons cr rest ih =>
    intro w objHealth
    rcases cr with ⟨command, r⟩
    by_cases hs : snap = 0
    · simp [World.combat_loop, hs]
    · rcases hrun : containsSub command "run"
      · rcases hinv : containsSub command "inventory"
        · rcases huse : containsSub command "use"
          · have := ih w objHealth
            simpa [World.combat_loop, hs, hrun, hinv, huse] using this
          · rcases hdu : w.do_use command objHealth objIndex r with _ | ⟨w1, h1⟩
            · simp [World.combat_loop, hs, hrun, hinv, huse, hdu]
            · have hw1 : w1 = w := do_use_frame w command objHealth objIndex r _ hdu
              subst hw1
              by_cases hh : h1 = 0
              · simp [World.combat_loop, hs, hrun, hinv, huse, hdu, hh]
              · simpa [World.combat_loop, hs, hrun, hinv, huse, hdu, hh] using ih w1 h1
        · have := ih w objHealth
          simpa [World.combat_loop, hs, hrun, hinv] using this
      · simp [World.combat_loop, hs, hrun]

/-- Claim C6: the combat loop entered by Attack (which snapshots the
backing-store player health, `player_health`, on entry) terminates
normally only via the three terminal states — player dead, enemy dead,
fled — each tied to its triggering condition; and since the loop never
writes the backing store (the returned world equals the entry world),
the player-health value tested at the top of each iteration equals the
backing-store player health of the then-current world at that
iteration. -/
theorem combat_loop_exits_only_terminal (w : World) (objHealth objIndex : Nat)
    (inputs : List (String × Nat)) :
    match World.combat_loop w w.player_health objHealth objIndex inputs with
    | CombatResult.exited e w1 h1 =>
      w1 = w ∧ ((e = CombatExit.playerDead ∧ w1.player_health = 0) ∨
        (e = CombatExit.enemyDead ∧ h1 = 0) ∨ e = CombatExit.fled)
    | CombatResult.panicked => True
    | CombatResult.awaitingInput w1 _ => w1 = w := by
  have h := combat_loop_cases objIndex w.player_health inputs w objHealth
  rcases hres : World.combat_loop w w.player_health objHealth objIndex inputs with
    ⟨e, w1, h1⟩ | _ | ⟨w1, h1⟩
  · rw [hres] at h
    rcases h with ⟨hw, hcond⟩
    subst hw
    exact ⟨rfl, hcond⟩
  · trivial
  · rw [hres] at h
    exact h

/-! ### The parser -/

/-- The tokens produced by `tokenize` are never empty. -/
theorem mem_tokenize_ne_empty : ∀ (cs cur : List Char), ∀ x ∈ tokenize cs cur, x ≠ "" := by
  intro cs
  induction cs with
  | nil =>
    intro cur x hx
    rcases cur with _ | ⟨c, cur'⟩
    · simp [tokenize] at hx
    · rw [tokenize, if_neg (by simp)] at hx
      rcases List.mem_singleton.1 hx with rfl
      intro h
      have hd : (c :: cur').reverse = ([] : List Char) := congrArg String.data h
      simp at hd
  | cons c cs ih =>
    intro cur x hx
    unfold tokenize at hx
    by_cases hw : c.isWhitespace
    · rw [if_pos hw] at hx
      rcases cur with _ | ⟨d, cur'⟩
      · exact ih [] x (by simpa using hx)
      · rw [if_neg (by simp)] at hx
        rcases List.mem_cons.1 hx with rfl | h2
        · intro h
          have hd : (d :: cur').reverse = ([] : List Char) := congrArg String.data h
          simp at hd
        · exact ih [] x h2
    · rw [if_neg hw] at hx
      exact ih (c :: cur) x hx

/-- Joining words with single spaces, as the spec words it. -/
def joinWordsWithSpaces : List String → String
  | [] => ""
  | [x] => x
  | x :: y :: rest => x ++ " " ++ joinWordsWithSpaces (y :: rest)

/-- Appending a space-separated word never yields the empty string. -/
theorem str_append_space_ne (x y : String) : x ++ " " ++ y ≠ "" := by
  intro h
  have hd : (x ++ " " ++ y).data = ("" : String).data := congrArg String.data h
  rw [String.data_append, String.data_append] at hd
  simp at hd

/-- The source's noun-joining fold equals the spec's space-join on any
list of nonempty tokens. -/
theorem foldl_join_eq :
    ∀ (xs : List String) (x : String), x ≠ "" →
      xs.foldl (fun accum item =>
        if accum.isEmpty then accum ++ item else accum ++ " " ++ item) x =
        joinWordsWithSpaces (x :: xs) := by
  intro xs
  induction xs with
  | nil => intro x _; rfl
  | cons y ys ih =>
    intro x hx
    have hxe : x.isEmpty = false := by
      rcases hb : x.isEmpty with _ | _
      · rfl
      · exact absurd ((String.isEmpty_iff x).1 hb) hx
    rw [List.foldl_cons]
    simp only [hxe, Bool.false_eq_true, if_false]
    rw [ih (x ++ " " ++ y) (str_append_space_ne x y)]
    rcases ys with _ | ⟨z, zs⟩
    · rfl
    · show _ = x ++ " " ++ joinWordsWithSpaces (y :: z :: zs)
      rw [joinWordsWithSpaces, joinWordsWithSpaces]
      simp [String.append_assoc]

/-- Modelled from the spec (section 4.2, claim C7 as amended): lowercase
the input, take the first whitespace token as the verb and the remaining
tokens rejoined with single spaces as the noun, map the nine recognized
verbs to their command kinds, and return `Unknown` carrying the full
trimmed lowercased input for any other verb. -/
def parse_spec (input : String) : Command :=
  let lower := strToLower input
  let tokens := splitWhitespace lower
  let verb := tokens.headD ""
  let noun := joinWordsWithSpaces (tokens.drop 1)
  match verb with
  | "look" => Command.Look noun
  | "go" => Command.Go noun
  | "quit" => Command.Quit
  | "attack" => Command.Attack noun
  | "drop" => Command.Drop noun
  | "get" => Command.Get noun
  | "help" => Command.Help
  | "inventory" => Command.Inventory
  | "map" => Command.Map
  | _ => Command.Unknown (strTrim lower)

/-- Claim C7 (amended): `parse` lowercases the input, splits the verb
and the space-rejoined noun, maps the nine recognized verbs to their
command kinds, and for any unrecognized verb returns `Unknown` carrying
the full trimmed lowercased input text (not just the verb). -/
theorem parse_matches_spec (input : String) : parse input = parse_spec input := by
  simp only [parse, parse_spec]
  have hnoun :
      ((splitWhitespace (strToLower input)).drop 1).foldl
        (fun accum item =>
          if accum.isEmpty then accum ++ item else accum ++ " " ++ item) "" =
        joinWordsWithSpaces ((splitWhitespace (strToLower input)).drop 1) := by
    rcases h : (splitWhitespace (strToLower input)).drop 1 with _ | ⟨x, xs⟩
    · rfl
    · have hxmem : x ∈ splitWhitespace (strToLower input) :=
        List.drop_subset 1 _ (h ▸ List.mem_cons_self x xs)
      have hxne : x ≠ "" := mem_tokenize_ne_empty _ [] x hxmem
      rw [List.foldl_cons]
      show List.foldl _ ("" ++ x) xs = _
      rw [show ("" ++ x : String) = x by simp]
      exact foldl_join_eq xs x hxne
  rw [hnoun]

/-- Claim C7 as stated is false: on the input "DANCE Wildly" the
`Unknown` command carries the lowercased trimmed text "dance wildly",
which differs from the original trimmed input "DANCE Wildly". -/
theorem parse_unknown_payload_counterexample :
    parse "DANCE Wildly" = Command.Unknown "dance wildly" ∧
      ("dance wildly" : String) ≠ "DANCE Wildly" := by
  refine ⟨by decide, by decide⟩

/-! ### Concrete scenarios -/

/-- The default world with the Bow moved into the player's inventory, as
play reaches it ("go tavern", "get bow", back to a fight). -/
def c1World : World := World.new.set_location 11 (Option.some LOC_PLAYER)

/-- Claim C1 fails on the code: `do_use` performs the unchecked `u64`
subtraction `obj_health -= attack_pwr` (line 673) with no clamp, so with
the local Troll health worn down to 5 a "use bow" (attack 10) underflows
— a panic in a debug build, a wrap far outside `[0, 100]` in release —
where the spec requires clamping at 0. -/
theorem do_use_underflows_on_failing_input :
    c1World.do_use "use bow" 5 LOC_TROLL 0 = Option.none ∧ u64Sub 5 10 = Option.none := by
  refine ⟨by decide, by decide⟩

/-- The default world with the Potion moved to the player's location
(the Forest) and the player's health set to 80. -/
def c8World : World :=
  (World.new.set_location 15 (Option.some LOC_FOREST)).set_health LOC_PLAYER (Option.some 80)

/-- `c8World` after consuming the Potion: health 100, Potion removed. -/
def c8WorldAfter : World :=
  (c8World.set_health LOC_PLAYER (Option.some 100)).set_location 15 Option.none

/-- Claim C8: with the Potion (heal 20) at the player's location and
player health 80, "get potion" raises the health to exactly 100, sets
the Potion's location to `none` (removed from play — a further
"get potion" no longer sees it and changes nothing), and returns the
message confirming the increase. -/
theorem get_potion_heals_to_full :
    c8World.do_get "potion" =
        Option.some ("You have consumed the item. Your health has increased to 100\n",
          c8WorldAfter) ∧
      c8WorldAfter.player_health = 100 ∧
      (c8WorldAfter.objAt 15).location = Option.none ∧
      c8WorldAfter.do_get "potion" =
        Option.some ("You don't see any 'potion' here.\n", c8WorldAfter) := by
  refine ⟨by decide, by decide, by decide, by decide⟩

/-- Claim C9 as stated is false only in its quoted output: the returned
string carries a trailing newline, so it is not equal to the quoted
"You don't see any 'potion' here." without one. -/
theorem get_potion_not_here_counterexample :
    World.new.do_get "potion" =
        Option.some ("You don't see any 'potion' here.\n", World.new) ∧
      ("You don't see any 'potion' here.\n" : String) ≠ "You don't see any 'potion' here." := by
  refine ⟨by decide, by decide⟩

/-- Claim C9 (amended): in the default world — Potion in the Village,
player in the Forest — "get potion" returns exactly
"You don't see any 'potion' here.\n" (the quoted message plus its
trailing newline) and leaves the world completely unchanged. -/
theorem get_potion_not_here_no_state_change :
    World.new.do_get "potion" =
      Option.some ("You don't see any 'potion' here.\n", World.new) := by
  decide

/-- Claim C10: for every world and any input whose first token is not a
recognized verb, `parse` yields an `Unknown` command, and `update_state`
on it returns exactly "Invalid command!!\n" followed by the full help
text, changing no world state. -/
theorem unknown_verb_reports_invalid_and_help (w : World) (s : String)
    (inputs : List (String × Nat))
    (h : ((splitWhitespace (strToLower s)).headD "") ∉
      (["look", "go", "quit", "attack", "drop", "get", "help", "inventory", "map"] :
        List String)) :
    parse s = Command.Unknown (strTrim (strToLower s)) ∧
      w.update_state (parse s) inputs =
        Option.some ("Invalid command!!\n" ++ w.display_help, w) := by
  have hp : parse s = Command.Unknown (strTrim (strToLower s)) := by
    simp only [parse]
    split
    all_goals simp_all
  exact ⟨hp, by rw [hp]; rfl⟩

/-- Witness for C10 at the concrete input "dance" in the default world. -/
theorem unknown_verb_witness :
    (((splitWhitespace (strToLower "dance")).headD "") ∉
        (["look", "go", "quit", "attack", "drop", "get", "help", "inventory", "map"] :
          List String)) ∧
      (parse "dance" = Command.Unknown (strTrim (strToLower "dance")) ∧
        World.new.update_state (parse "dance") [] =
          Option.some ("Invalid command!!\n" ++ World.new.display_help, World.new)) :=
  ⟨by decide, unknown_verb_reports_invalid_and_help World.new "dance" [] (by decide)⟩
